import Mathlib

/-!
Verification development for the jdbc-wrapper repository.

The repository wraps a JDBC driver exposed through the jpype runtime behind a
DBAPI-style Connection/Cursor interface, together with a type-conversion
pipeline registry, an error-translation layer, an async adapter and a
SQLAlchemy dialect/connector configuration-inheritance mechanism.

Shallow embedding conventions:
* Python values that flow through the type pipelines are modelled by `PyVal`;
  `float` objects are modelled by their exact rational value, `Decimal`
  objects by their exact rational value.
* Values handed to/from the Java side are modelled by `JValue`: either a Java
  object (which carries the Python value its `_py()` accessor produces) or a
  plain (non-Java) value passed through.
* Exceptions are modelled as data; "raising" is an `Except`/sum-type result.
* Registries (Python dicts with `setdefault` insertion) are association lists.

Where a definition models repository code that is absent from the source
snapshot (or the external jpype dbapi2 layer whose behaviour the spec pins
down), its doc comment starts with "Modelled from the spec:" and names what
is missing.  Everything else is translated directly from the source files.
-/

/-! ## Python value model -/

/-- A Gregorian calendar date, as `datetime.date`. -/
structure PyDate where
  year : Nat
  month : Nat
  day : Nat
deriving DecidableEq

/-- A time of day, as `datetime.time`. -/
structure PyTime where
  hour : Nat
  minute : Nat
  second : Nat
  microsecond : Nat
deriving DecidableEq

/-- A timestamp, as `datetime.datetime` (timezone offset in minutes, if any).
Both with- and without-timezone native timestamps decode to this one type. -/
structure PyDatetime where
  date : PyDate
  time : PyTime
  tzOffsetMinutes : Option Int
deriving DecidableEq

/-- The language-native values the type pipelines move around.
`pyfloat` carries the exact rational value of the binary64 float;
`pydecimal` carries the exact rational value of the `Decimal`. -/
inductive PyVal where
  | pynone
  | pybool (b : Bool)
  | pyint (n : Int)
  | pyfloat (q : ℚ)
  | pystr (s : String)
  | pybytes (bs : List Nat)
  | pydate (d : PyDate)
  | pytime (t : PyTime)
  | pydatetime (dt : PyDatetime)
  | pydecimal (q : ℚ)
deriving DecidableEq

/-- A value arriving from (or handed to) the Java layer: either a Java object
(`jobject p` exposes `p` through its `_py()` accessor, the duck-typed hook the
pipelines probe with `isinstance(value, jpype.java.lang.Object)`), or a plain
non-Java value passed through unchanged. -/
inductive JValue where
  | jobject (py : PyVal)
  | plain (v : PyVal)
deriving DecidableEq

/-- The Python payload of a `JValue` (for builtins such as `int()`/`str()`
that coerce a Java number/string exactly like its Python counterpart). -/
def JValue.payload : JValue → PyVal
  | .jobject p => p
  | .plain p => p

/-! ## DBAPI exception taxonomy and translation (`utils.catch_errors`) -/

/-- The ten DBAPI exception classes shared (by name) between the native
`jpype.dbapi2` module and the wrapper's caller-facing taxonomy. -/
inductive DbapiClass where
  | warning
  | error
  | interfaceError
  | databaseError
  | dataError
  | operationalError
  | integrityError
  | internalError
  | programmingError
  | notSupportedError
deriving DecidableEq

/-- Modelled from the spec: the `jpype.dbapi2` exception hierarchy and the
wrapper's `jdbc_wrapper/exceptions.py` are absent from the source snapshot.
Spec section 7 fixes the class hierarchy: NotSupported, Programming,
Integrity, Internal, Operational and Data errors all roll up under the
generic DatabaseError; DatabaseError, InterfaceError and Warning roll up
under the root Error. -/
def DbapiClass.parent : DbapiClass → Option DbapiClass
  | .error => none
  | .warning => some .error
  | .interfaceError => some .error
  | .databaseError => some .error
  | .dataError => some .databaseError
  | .operationalError => some .databaseError
  | .integrityError => some .databaseError
  | .internalError => some .databaseError
  | .programmingError => some .databaseError
  | .notSupportedError => some .databaseError

/-- `isinstance` on the modelled hierarchy: a class is an instance-class of
itself, of its parent, and of its grandparent (the chains have depth at most
two: concrete error < DatabaseError < Error). -/
def DbapiClass.isSubclassOf (c d : DbapiClass) : Bool :=
  c = d ||
    (c.parent.elim false fun p =>
      p = d || (p.parent.elim false fun pp => pp = d))

/-- A native (`jpype.dbapi2`) exception instance: its class and the
`exc.args` tuple (modelled as a list of strings). -/
structure NativeExc where
  cls : DbapiClass
  args : List String
deriving DecidableEq

/-- A wrapper taxonomy member as re-raised by `catch_errors`: constructed
from the original arguments, with the original preserved as the cause
(`raise ... from exc`). -/
structure WrappedExc where
  cls : DbapiClass
  args : List String
  cause : Option NativeExc
deriving DecidableEq

/-- The outcome of the zero-argument native operation `catch_errors` runs. -/
inductive CallResult (α : Type) where
  | ok (a : α)
  | raised (e : NativeExc)
deriving DecidableEq

/-- The outcome of `catch_errors` itself: a value, a translated taxonomy
member, or an exception that matched no `except` clause and propagated
unchanged. -/
inductive CatchResult (α : Type) where
  | ok (a : α)
  | wrapped (e : WrappedExc)
  | unhandled (e : NativeExc)
deriving DecidableEq

/-- The order of the `except` clauses in `utils.catch_errors`
(src/jdbc_wrapper/utils.py lines 171-193), most specific first. -/
def catchOrder : List DbapiClass :=
  [.notSupportedError, .programmingError, .internalError, .integrityError,
   .operationalError, .dataError, .databaseError, .interfaceError,
   .warning, .error]

/-- `utils.catch_errors(func, *args, **kwargs)`: run the operation; on a
native exception, re-raise the member of the caller-facing taxonomy of the
first `except` clause the exception is an instance of, built from
`exc.args`, with the original as cause.  An exception outside the taxonomy
matches no clause and propagates unchanged. -/
def catch_errors {α : Type} (r : CallResult α) : CatchResult α :=
  match r with
  | .ok a => .ok a
  | .raised e =>
    match catchOrder.find? (fun c => e.cls.isSubclassOf c) with
    | some c => .wrapped ⟨c, e.args, some e⟩
    | none => .unhandled e

/-- `utils.wrap_errors` decorates a function so every call goes through
`catch_errors`. -/
def wrap_errors {α β : Type} (f : α → CallResult β) : α → CatchResult β :=
  fun a => catch_errors (f a)

/-! ## Model of the CPython builtins used by the pipelines

The pipelines call the builtins `bool`, `int`, `float`, `str`, `bytes` and
the constructor `decimal.Decimal` on incoming values.  These are modelled
below for the value shapes that can actually reach them; a builtin call that
would raise `TypeError`/`ValueError` returns `none`. -/

/-- Absolute value on `ℚ` (executable). -/
def ratAbs (q : ℚ) : ℚ := if q < 0 then -q else q

/-- Round to nearest integer, ties to even - the rounding used when a value
is converted to a binary64 float. -/
def roundHalfToEven (q : ℚ) : ℤ :=
  let f := ⌊q⌋
  let r := q - (f : ℚ)
  if r < 1 / 2 then f
  else if 1 / 2 < r then f + 1
  else if f % 2 = 0 then f else f + 1

/-- `2 ^ e` on `ℚ` for an integer exponent (executable, no `zpow`). -/
def pow2z (e : ℤ) : ℚ :=
  if 0 ≤ e then ((2 ^ e.toNat : ℕ) : ℚ) else 1 / ((2 ^ (-e).toNat : ℕ) : ℚ)

/-- Normalise a positive rational into the binade `[1, 2)`: returns
`(m, e)` with `a = m * 2 ^ e` and `1 ≤ m < 2`.  Fuel-driven structural
recursion; the fuel covers far more than the binary64 exponent range. -/
def scaleToBinade : Nat → ℚ → ℤ → ℚ × ℤ
  | 0, a, e => (a, e)
  | fuel + 1, a, e =>
    if a < 1 then scaleToBinade fuel (a * 2) (e - 1)
    else if 2 ≤ a then scaleToBinade fuel (a / 2) (e + 1)
    else (a, e)

/-- Model of conversion to a CPython `float` (IEEE-754 binary64): round the
exact value to 53 significand bits, nearest, ties to even.  Normal range
only - the overflow and subnormal regimes are out of range for the values
the pipelines handle. -/
def pyFloat64OfRat (q : ℚ) : ℚ :=
  if q = 0 then 0
  else
    let s : ℚ := if q < 0 then -1 else 1
    let me := scaleToBinade 4200 (ratAbs q) 0
    let m := roundHalfToEven (me.1 * 2 ^ 52)
    if m = 2 ^ 53 then s * pow2z (me.2 + 1) else s * (m : ℚ) * pow2z (me.2 - 52)

/-- Parse a plain decimal literal (optional sign, digits, optional fraction)
to its exact rational value, as `decimal.Decimal(str)` / `float(str)` do. -/
def parseDecString (s : String) : Option ℚ :=
  let neg := s.startsWith "-"
  let body := if neg then s.drop 1 else s
  let signed : ℚ → ℚ := fun q => if neg then -q else q
  match body.splitOn "." with
  | [a] => (a.toNat?).map fun n => signed n
  | [a, b] =>
    match a.toNat?, b.toNat? with
    | some ia, some ib =>
      some (signed ((ia : ℚ) + (ib : ℚ) / ((10 : ℚ) ^ b.length)))
    | _, _ => none
  | _ => none

/-- Model of the builtin `bool(value)` (Python truthiness). -/
def pyBoolCoerce : PyVal → Bool
  | .pynone => false
  | .pybool b => b
  | .pyint n => n != 0
  | .pyfloat q => q != 0
  | .pystr s => s != ""
  | .pybytes bs => !bs.isEmpty
  | .pydate _ => true
  | .pytime _ => true
  | .pydatetime _ => true
  | .pydecimal q => q != 0

/-- Model of the builtin `int(value)` (truncation toward zero on floats,
string parsing on str; `TypeError` on unsupported shapes is `none`). -/
def pyIntCoerce : PyVal → Option Int
  | .pyint n => some n
  | .pybool b => some (if b then 1 else 0)
  | .pyfloat q => some (q.num.tdiv q.den)
  | .pydecimal q => some (q.num.tdiv q.den)
  | .pystr s => s.toInt?
  | _ => none

/-- Model of the builtin `float(value)` (identity on floats, binary64
rounding elsewhere). -/
def pyFloatCoerce : PyVal → Option ℚ
  | .pyfloat q => some q
  | .pyint n => some (pyFloat64OfRat n)
  | .pybool b => some (if b then 1 else 0)
  | .pydecimal q => some (pyFloat64OfRat q)
  | .pystr s => (parseDecString s).map pyFloat64OfRat
  | _ => none

/-- Model of `decimal.Decimal(value)`: exact on ints, floats (a float
converts to its exact binary value) and decimals; parses strings. -/
def pyDecimalCoerce : PyVal → Option ℚ
  | .pydecimal q => some q
  | .pyfloat q => some q
  | .pyint n => some n
  | .pystr s => parseDecString s
  | _ => none

/-- Zero-padded decimal rendering used by the ISO formatters. -/
def padNat (width n : Nat) : String :=
  let s := toString n
  String.mk (List.replicate (width - s.length) '0') ++ s

/-- ISO rendering of a date, as `str(datetime.date)`. -/
def isoOfDate (d : PyDate) : String :=
  padNat 4 d.year ++ "-" ++ padNat 2 d.month ++ "-" ++ padNat 2 d.day

/-- ISO rendering of a time, as `str(datetime.time)` (microseconds elided
when zero). -/
def isoOfTime (t : PyTime) : String :=
  padNat 2 t.hour ++ ":" ++ padNat 2 t.minute ++ ":" ++ padNat 2 t.second ++
    (if t.microsecond = 0 then "" else "." ++ padNat 6 t.microsecond)

/-- Model of the builtin `str(value)`.  Exact on strings, booleans,
integers and dates/times; the rendering of floats/decimals/bytes is a
placeholder (no theorem depends on those branches). -/
def pyStrOf : PyVal → String
  | .pystr s => s
  | .pybool b => if b then "True" else "False"
  | .pyint n => toString n
  | .pynone => "None"
  | .pydate d => isoOfDate d
  | .pytime t => isoOfTime t
  | .pydatetime dt => isoOfDate dt.date ++ " " ++ isoOfTime dt.time
  | .pyfloat q => toString q.num ++ "/" ++ toString q.den
  | .pydecimal q => toString q.num ++ "/" ++ toString q.den
  | .pybytes bs => String.intercalate "," (bs.map toString)

/-- Model of the builtin `bytes(value)`: identity on bytes, a zero-filled
buffer on a non-negative int, error elsewhere. -/
def pyBytesCoerce : PyVal → Option (List Nat)
  | .pybytes bs => some bs
  | .pyint n => if 0 ≤ n then some (List.replicate n.toNat 0) else none
  | _ => none

/-- Parse an ISO `YYYY-MM-DD` date, as `datetime.date.fromisoformat`. -/
def parseIsoDate (s : String) : Option PyDate :=
  match (s.splitOn "-").map String.toNat? with
  | [some y, some m, some d] => some ⟨y, m, d⟩
  | _ => none

/-- Parse an ISO `HH:MM:SS[.ffffff]` time, as
`datetime.time.fromisoformat` (fractional part and offsets elided). -/
def parseIsoTime (s : String) : Option PyTime :=
  match (s.splitOn ":").map String.toNat? with
  | [some h, some m, some sec] => some ⟨h, m, sec, 0⟩
  | _ => none

/-- Parse an ISO timestamp, as `datetime.datetime.fromisoformat`
(date and time separated by a space, offset elided). -/
def parseIsoDatetime (s : String) : Option PyDatetime :=
  match s.splitOn " " with
  | [ds, ts] =>
    match parseIsoDate ds, parseIsoTime ts with
    | some d, some t => some ⟨d, t, none⟩
    | _, _ => none
  | _ => none

/-! ## Type pipelines (`pipeline.py`)

Each built-in pipeline's `java_to_python` (decode) and `python_to_java`
(encode) methods, translated from src/jdbc_wrapper/pipeline.py.  The
`python_to_java` side of every pipeline except Decimal returns the value
unchanged; decode coerces via the builtin shown in the source. -/

/-- `ObjectPipeline.java_to_python`: unwrap a Java object via `_py()`,
pass anything else through. -/
def ObjectPipeline_java_to_python : JValue → PyVal
  | .jobject p => p
  | .plain v => v

/-- `ObjectPipeline.python_to_java`: `return value`. -/
def ObjectPipeline_python_to_java (v : PyVal) : JValue := .plain v

/-- `NullPipeline.java_to_python`: `return None`. -/
def NullPipeline_java_to_python (_ : JValue) : PyVal := .pynone

/-- `NullPipeline.python_to_java`: `return value` (the value is `None`). -/
def NullPipeline_python_to_java (_ : Unit) : JValue := .plain .pynone

/-- `BooleanPipeline.java_to_python`: `_py()` on Java objects, else
`bool(value)`. -/
def BooleanPipeline_java_to_python : JValue → PyVal
  | .jobject p => p
  | .plain v => .pybool (pyBoolCoerce v)

/-- `BooleanPipeline.python_to_java`: `return value`. -/
def BooleanPipeline_python_to_java (b : Bool) : JValue := .plain (.pybool b)

/-- `StrPipeline.java_to_python`: `str(value)`. -/
def StrPipeline_java_to_python (v : JValue) : PyVal := .pystr (pyStrOf v.payload)

/-- `StrPipeline.python_to_java`: `return value`. -/
def StrPipeline_python_to_java (s : String) : JValue := .plain (.pystr s)

/-- `BinaryPipeline.java_to_python`: `bytes(value)`. -/
def BinaryPipeline_java_to_python (v : JValue) : Option PyVal :=
  (pyBytesCoerce v.payload).map .pybytes

/-- `BinaryPipeline.python_to_java`: `return value`. -/
def BinaryPipeline_python_to_java (bs : List Nat) : JValue := .plain (.pybytes bs)

/-- `IntPipeline.java_to_python`: `int(value)`. -/
def IntPipeline_java_to_python (v : JValue) : Option PyVal :=
  (pyIntCoerce v.payload).map .pyint

/-- `IntPipeline.python_to_java`: `return value`. -/
def IntPipeline_python_to_java (n : Int) : JValue := .plain (.pyint n)

/-- `FloatPipeline.java_to_python`: `float(value)`. -/
def FloatPipeline_java_to_python (v : JValue) : Option PyVal :=
  (pyFloatCoerce v.payload).map .pyfloat

/-- `FloatPipeline.python_to_java`: `return value`. -/
def FloatPipeline_python_to_java (q : ℚ) : JValue := .plain (.pyfloat q)

/-- `DatePipeline.java_to_python`: `_py()` on Java objects,
`date.fromisoformat` on strings, pass anything else through. -/
def DatePipeline_java_to_python : JValue → Option PyVal
  | .jobject p => some p
  | .plain (.pystr s) => (parseIsoDate s).map .pydate
  | .plain v => some v

/-- `DatePipeline.python_to_java`: `return value`. -/
def DatePipeline_python_to_java (d : PyDate) : JValue := .plain (.pydate d)

/-- `TimePipeline.java_to_python`: `_py()` on Java objects,
`time.fromisoformat` on strings, pass anything else through. -/
def TimePipeline_java_to_python : JValue → Option PyVal
  | .jobject p => some p
  | .plain (.pystr s) => (parseIsoTime s).map .pytime
  | .plain v => some v

/-- `TimePipeline.python_to_java`: `return value`. -/
def TimePipeline_python_to_java (t : PyTime) : JValue := .plain (.pytime t)

/-- `DatetimePipeline.java_to_python`: `_py()` on Java objects,
`datetime.fromisoformat` on strings, pass anything else through. -/
def DatetimePipeline_java_to_python : JValue → Option PyVal
  | .jobject p => some p
  | .plain (.pystr s) => (parseIsoDatetime s).map .pydatetime
  | .plain v => some v

/-- `DatetimePipeline.python_to_java`: `return value`. -/
def DatetimePipeline_python_to_java (dt : PyDatetime) : JValue :=
  .plain (.pydatetime dt)

/-- `DecimalPipeline.java_to_python`: `_py()` on Java objects, else
`Decimal(value)`. -/
def DecimalPipeline_java_to_python : JValue → Option PyVal
  | .jobject p => some p
  | .plain v => (pyDecimalCoerce v).map .pydecimal

/-- `DecimalPipeline.python_to_java`: `return float(value)` - the decimal
is encoded to the native side as a binary64 float (deliberate precision
loss). -/
def DecimalPipeline_python_to_java (q : ℚ) : JValue :=
  .plain (.pyfloat (pyFloat64OfRat q))

/-! ## The type registry (`pipeline.py`: `BasePipeline.__init__`,
`get_type_pipeline`) -/

/-- The `dtype` attribute of a pipeline class: a language type (identified
by its `__qualname__`) or a plain string. -/
inductive DTypeId where
  | typeId (qualname : String)
  | strId (s : String)
deriving DecidableEq

/-- A key of the global `_registry` dict: a language type object, a string,
or a native (Java) type identifier. -/
inductive RegKey where
  | ofType (qualname : String)
  | ofStr (s : String)
  | ofJType (j : String)
deriving DecidableEq

/-- The data of a concrete pipeline: its `dtype` and its native type
identifiers `jtypes`. -/
structure TypePipelineDef where
  dtype : DTypeId
  jtypes : List String
deriving DecidableEq

/-- The registry key the pipeline's `dtype` itself produces. -/
def dtypeKey (p : TypePipelineDef) : RegKey :=
  match p.dtype with
  | .typeId n => .ofType n
  | .strId s => .ofStr s

/-- `dtype_str` in `BasePipeline.__init__`: the string itself, or the
type's `__qualname__`. -/
def dtypeName (p : TypePipelineDef) : String :=
  match p.dtype with
  | .typeId n => n
  | .strId s => s

/-- Model of `str.upper` (ASCII names). -/
def pyUpper (s : String) : String := String.mk (s.data.map Char.toUpper)

/-- The global `_registry` dict, as an association list (first match wins,
`setdefault` appends only when the key is absent). -/
abbrev Registry : Type := List (RegKey × TypePipelineDef)

/-- Dict lookup. -/
def registryLookup : Registry → RegKey → Option TypePipelineDef
  | [], _ => none
  | (k, v) :: rest, key => if k = key then some v else registryLookup rest key

/-- `dict.setdefault(key, value)`: insert only when absent. -/
def registrySetdefault (r : Registry) (k : RegKey) (v : TypePipelineDef) :
    Registry :=
  match registryLookup r k with
  | some _ => r
  | none => r ++ [(k, v)]

/-- `BasePipeline.__init__`: register the pipeline under its `dtype`, under
the uppercased `dtype_str`, and under each of its `jtypes`, all with
`setdefault` (first registration wins). -/
def BasePipeline_init (r : Registry) (p : TypePipelineDef) : Registry :=
  let r1 := registrySetdefault r (dtypeKey p) p
  let r2 := registrySetdefault r1 (.ofStr (pyUpper (dtypeName p))) p
  p.jtypes.foldl (fun acc j => registrySetdefault acc (.ofJType j) p) r2

/-- The builtin (non-dbapi) exception classes raised by registry and
configuration lookups. -/
inductive BuiltinExcClass where
  | keyError
  | lookupError
  | valueError
  | exceptionCls
deriving DecidableEq

/-- The CPython builtin exception hierarchy restricted to these classes:
`KeyError < LookupError < Exception`, `ValueError < Exception`. -/
def BuiltinExcClass.parent : BuiltinExcClass → Option BuiltinExcClass
  | .keyError => some .lookupError
  | .lookupError => some .exceptionCls
  | .valueError => some .exceptionCls
  | .exceptionCls => none

/-- `isinstance` on the builtin classes (chain depth at most two). -/
def BuiltinExcClass.isSubclassOf (c d : BuiltinExcClass) : Bool :=
  c = d ||
    (c.parent.elim false fun p =>
      p = d || (p.parent.elim false fun pp => pp = d))

/-- The argument shapes accepted by `get_type_pipeline`: an existing
pipeline object, a string, or any other registry key (a language type or a
native type identifier). -/
inductive ResolveKey where
  | pipe (p : TypePipelineDef)
  | str (s : String)
  | obj (k : RegKey)
deriving DecidableEq

/-- `get_type_pipeline(dtype)`: a pipeline resolves to itself; a string
resolves via `_registry[dtype.upper()]`; anything else via
`_registry[dtype]`.  An absent key raises the dict's `KeyError`. -/
def get_type_pipeline (r : Registry) (k : ResolveKey) :
    Except BuiltinExcClass TypePipelineDef :=
  match k with
  | .pipe p => .ok p
  | .str s =>
    match registryLookup r (.ofStr (pyUpper s)) with
    | some p => .ok p
    | none => .error .keyError
  | .obj key =>
    match registryLookup r key with
    | some p => .ok p
    | none => .error .keyError

/-! ## Cursor parameter handling (`cursor.py`) -/

/-- One parameter set: a positional sequence or a named mapping (an
insertion-ordered dict, modelled as a key/value list in iteration order). -/
inductive ParamSet where
  | pos (l : List PyVal)
  | map (kvs : List (String × PyVal))
deriving DecidableEq

/-- The value passed as `seq_of_parameters` to `executemany`: a sequence of
parameter sets, or (as probed by the code's `isinstance` check) a mapping
whose values are parameter sets. -/
inductive ParamsArg where
  | seq (l : List ParamSet)
  | map (kvs : List (String × ParamSet))
deriving DecidableEq

/-- The flattening rule of `Cursor._execute`: a named mapping becomes the
positional list of its values in iteration order. -/
def flatten_param_set : ParamSet → ParamSet
  | .map kvs => .pos (kvs.map Prod.snd)
  | .pos l => .pos l

/-- The parameter handling of `Cursor._execute` (src/jdbc_wrapper/cursor.py
lines 74-83): a `Mapping` is replaced by `list(parameters.values())`, and
the native call receives `list(parameters) if parameters else None` (an
empty sequence becomes `None`). -/
def Cursor_execute_params (parameters : Option ParamSet) : Option (List PyVal) :=
  let p : Option (List PyVal) :=
    match parameters with
    | none => none
    | some (.map kvs) => some (kvs.map Prod.snd)
    | some (.pos l) => some l
  match p with
  | none => none
  | some l => if l.isEmpty then none else some l

/-- The parameter handling of `Cursor._executemany`
(src/jdbc_wrapper/cursor.py lines 87-98): only the *whole*
`seq_of_parameters` is tested with `isinstance(..., Mapping)` (and replaced
by the list of its values); the individual parameter sets inside a sequence
are passed to the native `executemany` unchanged, and an empty sequence
becomes `None`. -/
def Cursor_executemany_params (seq : ParamsArg) : Option (List ParamSet) :=
  let s : List ParamSet :=
    match seq with
    | .map kvs => kvs.map Prod.snd
    | .seq l => l
  if s.isEmpty then none else some s

/-! ## Cursor fetch and close state (`cursor.py`, `pyjdbc2/connection.py`) -/

/-- The state of the native `jpype.dbapi2` cursor a wrapper `Cursor` owns:
its local closed flag (`_closed`), the closed state of the owning native
connection (`_jcx.isClosed()`), the fetch batch size (`arraysize`,
DBAPI default 1) and the remaining rows of the current result set. -/
structure JpypeCursorState where
  closed : Bool := false
  jcxClosed : Bool := false
  arraysize : Nat := 1
  rows : List (List PyVal) := []
deriving DecidableEq

/-- Modelled from the spec: the native jpype result-set layer and the async
cursor plumbing (`jdbc_wrapper/abc.py`, `jdbc_wrapper/cursor_async.py`) are
absent from the source snapshot.  The spec fixes the contract "fetchmany's
size defaults to the cursor's arraysize; returns fewer rows only at end of
results", so the default-size sentinel `-1` the wrapper passes resolves to
`arraysize`; an explicit non-negative size is used as given. -/
def jpype_fetch_size (st : JpypeCursorState) (size : Int) : Nat :=
  if size < 0 then st.arraysize else size.toNat

/-- Modelled from the spec (see `jpype_fetch_size`): the native `fetchmany`
requests `jpype_fetch_size` rows from the result set and returns however
many remain, consuming them. -/
def jpype_fetchmany (st : JpypeCursorState) (size : Int) :
    List (List PyVal) × JpypeCursorState :=
  let n := jpype_fetch_size st size
  (st.rows.take n, { st with rows := st.rows.drop n })

/-- `Cursor.fetchmany(size=-1)` (src/jdbc_wrapper/cursor.py lines 108-112):
delegate to the native `fetchmany` and convert each row to a tuple. -/
def Cursor_fetchmany (st : JpypeCursorState) (size : Int := -1) :
    List (List PyVal) × JpypeCursorState :=
  jpype_fetchmany st size

/-- `Cursor.is_closed` (src/jdbc_wrapper/cursor.py line 172):
`self._jpype_cursor._closed or self._jpype_cursor._jcx.isClosed()` - both
the local flag and the native handle must confirm open. -/
def Cursor_is_closed (st : JpypeCursorState) : Bool :=
  st.closed || st.jcxClosed

/-- Modelled from the spec: the native `jpype.dbapi2` cursor `close` is
external to the snapshot; per the spec's close contract it releases the
native statement handle, marks the cursor closed, and a repeated close is a
no-op rather than an error. -/
def jpype_cursor_close (st : JpypeCursorState) : CallResult JpypeCursorState :=
  .ok { st with closed := true }

/-- `Cursor.close` (src/jdbc_wrapper/cursor.py lines 67-70): delegate to
the native close through the error-translation wrapper. -/
def Cursor_close (st : JpypeCursorState) : CatchResult JpypeCursorState :=
  catch_errors (jpype_cursor_close st)

/-- The state of the native `jpype.dbapi2` connection a wrapper
`Connection` owns: its closed flag. -/
structure JpypeConnectionState where
  closed : Bool
deriving DecidableEq

/-- Modelled from the spec: the native `jpype.dbapi2` connection `close` is
external to the snapshot; per the spec's close contract it releases the
handle, marks the connection closed, and a repeated close is a no-op rather
than an error. -/
def jpype_connection_close (_ : JpypeConnectionState) :
    CallResult JpypeConnectionState :=
  .ok ⟨true⟩

/-- `Connection.close` (src/pyjdbc2/connection.py lines 40-43): delegate to
the native close through the error-translation wrapper. -/
def Connection_close (c : JpypeConnectionState) :
    CatchResult JpypeConnectionState :=
  catch_errors (jpype_connection_close c)

/-- Modelled from the spec: `is_closed` lives on the connection ABC
(`pyjdbc2/abc.py`, absent from the snapshot) and reflects the native
handle's closed state. -/
def Connection_is_closed (c : JpypeConnectionState) : Bool := c.closed

/-! ## Dialect settings inheritance (`_sqlalchemy/base.py`) -/

/-- The declared fields of the `DialectSettings` dataclass
(src/jdbc_wrapper/_sqlalchemy/base.py lines 57-345), in declaration
order - what `dataclasses.fields(self)` iterates over. -/
def DialectSettings_fields : List String :=
  ["name", "driver", "inherit",
   "supports_alter", "supports_comments", "supports_constraint_comments",
   "inline_comments", "supports_statement_cache", "div_is_floordiv",
   "bind_typing", "include_set_input_sizes", "exclude_set_input_sizes",
   "default_sequence_base", "execute_sequence_format", "supports_sequences",
   "sequences_optional", "preexecute_autoincrement_sequences",
   "supports_identity_columns", "favor_returning_over_lastrowid",
   "update_returning", "delete_returning", "update_returning_multifrom",
   "delete_returning_multifrom", "insert_returning", "cte_follows_insert",
   "supports_native_enum", "supports_native_boolean", "supports_native_uuid",
   "returns_native_bytes", "supports_simple_order_by_label",
   "tuple_in_values", "engine_config_types", "supports_native_decimal",
   "max_identifier_length", "supports_sane_rowcount",
   "supports_sane_multi_rowcount", "colspecs", "supports_default_values",
   "supports_default_metavalue", "default_metavalue_token",
   "supports_empty_insert", "supports_multivalues_insert",
   "use_insertmanyvalues", "use_insertmanyvalues_wo_returning",
   "insertmanyvalues_implicit_sentinel", "insertmanyvalues_page_size",
   "insertmanyvalues_max_parameters", "supports_server_side_cursors",
   "server_side_cursors", "server_version_info", "default_schema_name",
   "requires_name_normalize", "is_async", "has_terminate"]

/-- The fields `DialectSettings.__post_init__` skips when resolving
inheritance. -/
def DialectSettings_ignore : List String := ["inherit", "name", "driver"]

/-- A settings record's field assignment: `none` is the distinguished
"unset" sentinel, `some v` an explicitly set value.  The base dialect a
record inherits from is an attribute table: `none` means the attribute is
missing (`getattr(..., MISSING)`). -/
abbrev SettingsRecord : Type := String → Option PyVal

/-- `DialectSettings.__post_init__` (src/jdbc_wrapper/_sqlalchemy/base.py
lines 347-360): when an `inherit` base is declared, every declared field
other than `inherit`/`name`/`driver` that is still at the unset sentinel is
overwritten with the base's attribute value when the base defines one, and
left unset otherwise; fields already set are not touched. -/
def DialectSettings_post_init (derived : SettingsRecord)
    (inherit : Option SettingsRecord) : SettingsRecord :=
  fun f =>
    match inherit with
    | none => derived f
    | some base =>
      if f ∈ DialectSettings_fields ∧ f ∉ DialectSettings_ignore then
        match derived f with
        | some v => some v
        | none => base f
      else derived f

/-! ## Connector configuration (`_sqlalchemy/_connector/main.py`) -/

/-- The connect arguments `JDBCConnector._create_connect_args` assembles
for the DBAPI `connect` call. -/
structure ConnectArgs where
  dsn : String
  driver : String
  is_async : Bool
  driver_args : List (String × String)
  modules : List String
deriving DecidableEq

/-- The result of `_create_connect_args`: either the assembled arguments,
or (when a raw `jdbc_dsn` override is present) a re-parse of the override
URL delegated to the external SQLAlchemy `make_url`/`create_connect_args`
machinery, which is outside this model's scope. -/
inductive ConnectArgsResult where
  | args (a : ConnectArgs)
  | viaDsnOverride (rawDsn : String)
deriving DecidableEq

/-- An exception raised by the configuration layer: a taxonomy class, its
message, and the builtin exception it was chained from (`raise ... from
exc`), when any. -/
structure ConfigExc where
  cls : DbapiClass
  msg : String
  cause : Option BuiltinExcClass
deriving DecidableEq

/-- Lookup in a query-string mapping (first match). -/
def queryLookup : List (String × String) → String → Option String
  | [], _ => none
  | (k, v) :: rest, key => if k = key then some v else queryLookup rest key

/-- Remove a key from a query-string mapping (`dict.pop`). -/
def queryPop (q : List (String × String)) (key : String) :
    List (String × String) :=
  q.filter (fun kv => kv.fst ≠ key)

/-- `JDBCConnector._create_connect_args(dsn, query)`
(src/jdbc_wrapper/_sqlalchemy/_connector/main.py lines 129-163): with a
`jdbc_dsn` override present the URL is re-parsed externally; otherwise
`jdbc_driver` is popped - its absence raises
`OperationalError("The jdbc_driver key is required in the query string")`
chained from the dict's `KeyError` - then `jdbc_modules` is popped and the
remaining query keys pass through verbatim as native driver properties. -/
def JDBCConnector_create_connect_args (dsn : String) (is_async : Bool)
    (query : List (String × String)) : Except ConfigExc ConnectArgsResult :=
  if (queryLookup query "jdbc_dsn").isSome then
    .ok (.viaDsnOverride ((queryLookup query "jdbc_dsn").getD ""))
  else
    match queryLookup query "jdbc_driver" with
    | none =>
      .error ⟨.operationalError,
        "The `jdbc_driver` key is required in the query string",
        some .keyError⟩
    | some driver =>
      let rest := queryPop query "jdbc_driver"
      let modules :=
        match queryLookup rest "jdbc_modules" with
        | some m => [m]
        | none => []
      let driver_args := queryPop rest "jdbc_modules"
      .ok (.args ⟨dsn, driver, is_async, driver_args, modules⟩)

/-! ## Async adapter (`pyjdbc2/connection_async.py`) -/

/-- An exception as seen by `AsyncConnection._safe_run_in_thread`'s
`except (jpype_dbapi2.Error, exceptions.Error)` clause: a native jpype
exception, a wrapper taxonomy exception, or anything else (for example a
cancellation). -/
inductive PyException where
  | jpypeErr (e : NativeExc)
  | wrapperErr (e : WrappedExc)
  | otherErr (tag : String)
deriving DecidableEq

/-- Whether the exception matches
`except (jpype_dbapi2.Error, exceptions.Error)`: an instance of either
error family's root. -/
def isDbapiErrorFamily : PyException → Bool
  | .jpypeErr e => e.cls.isSubclassOf .error
  | .wrapperErr e => e.cls.isSubclassOf .error
  | .otherErr _ => false

/-- `AsyncConnection._safe_run_in_thread(func, *args, **kwargs)`
(src/pyjdbc2/connection_async.py lines 92-106).  On an already-closed
connection it raises `OperationalError("Connection is closed")` without
running anything.  Otherwise the blocking call runs on the worker thread
(`run_in_thread` lives in `pyjdbc2/utils.py`, absent from the snapshot;
its outcome is the `call` argument here).  If the call raises a
database-error-family exception, then inside
`anyio.CancelScope(shield=True)` the connection is closed when not already
closed (the close is modelled as succeeding), and the original exception is
re-raised unchanged; any other exception propagates without the cleanup.
The boolean records whether the shielded cleanup scope ran. -/
def AsyncConnection_safe_run_in_thread {α : Type}
    (conn : JpypeConnectionState) (call : Except PyException α) :
    Except PyException α × JpypeConnectionState × Bool :=
  if conn.closed then
    (.error (.wrapperErr ⟨.operationalError, ["Connection is closed"], none⟩),
      conn, false)
  else
    match call with
    | .ok a => (.ok a, conn, false)
    | .error e =>
      if isDbapiErrorFamily e then
        let conn' := if conn.closed then conn else ⟨true⟩
        (.error e, conn', true)
      else (.error e, conn, false)

/-- The integer pipeline's registration data
(src/jdbc_wrapper/pipeline.py lines 167-169). -/
def intPipelineDef : TypePipelineDef :=
  ⟨.typeId "int", ["JInt", "JLong", "JShort"]⟩

/-- A derived settings record with every capability field unset. -/
def derivedAllUnset : SettingsRecord := fun f =>
  if f = "name" then some (.pystr "sqlite")
  else if f = "driver" then some (.pystr "jdbc_wrapper")
  else none

/-- A base dialect defining `insert_returning = True`. -/
def baseWithReturning : SettingsRecord := fun f =>
  if f = "insert_returning" then some (.pybool true) else none

/-! ## Theorems -/

/-- Claim C1: a call that raises a native exception from the dbapi taxonomy
is always re-raised as the corresponding (most specific) caller-facing
taxonomy member, constructed from the original exception's arguments, with
the original preserved as the cause — never swallowed and never weakened to
a strict ancestor, because the `except` clauses are ordered most specific
first (NotSupported, Programming, Internal, Integrity, Operational, Data,
Database, Interface, Warning, Error). -/
theorem catch_errors_translates_most_specific :
    ∀ (e : NativeExc),
      catch_errors (α := Unit) (.raised e) = .wrapped ⟨e.cls, e.args, some e⟩ := by
  intro e
  obtain ⟨c, args⟩ := e
  cases c <;> rfl

/-- Lookup after appending one binding: an existing binding wins, otherwise
the new binding answers exactly its own key. -/
theorem registryLookup_append (r : Registry) (k k' : RegKey)
    (v' : TypePipelineDef) :
    registryLookup (r ++ [(k', v')]) k =
      match registryLookup r k with
      | some w => some w
      | none => if k' = k then some v' else none := by
  induction r with
  | nil => simp [registryLookup]
  | cons hd tl ih =>
    obtain ⟨k0, v0⟩ := hd
    by_cases hk : k0 = k
    · simp [registryLookup, hk]
    · simpa [registryLookup, hk] using ih

/-- `setdefault` never disturbs a key that is already bound. -/
theorem registryLookup_setdefault_preserved {r : Registry} {k : RegKey}
    {w : TypePipelineDef} (k' : RegKey) (v' : TypePipelineDef)
    (h : registryLookup r k = some w) :
    registryLookup (registrySetdefault r k' v') k = some w := by
  unfold registrySetdefault
  cases hfind : registryLookup r k' with
  | some _ => simpa using h
  | none => rw [registryLookup_append, h]

/-- `setdefault` binds an absent key to the supplied value. -/
theorem registryLookup_setdefault_hit {r : Registry} {k : RegKey}
    (v : TypePipelineDef) (h : registryLookup r k = none) :
    registryLookup (registrySetdefault r k v) k = some v := by
  unfold registrySetdefault
  rw [h, registryLookup_append, h]
  simp

/-- After a `setdefault` with value `p`, a key that was absent or already
bound to `p` is still absent or bound to `p`. -/
theorem registryLookup_setdefault_inv {r : Registry} {k : RegKey}
    {p : TypePipelineDef} (k' : RegKey)
    (h : registryLookup r k = none ∨ registryLookup r k = some p) :
    registryLookup (registrySetdefault r k' p) k = none ∨
      registryLookup (registrySetdefault r k' p) k = some p := by
  rcases h with h | h
  · unfold registrySetdefault
    cases hfind : registryLookup r k' with
    | some _ => exact .inl h
    | none =>
      rw [registryLookup_append, h]
      by_cases hk : k' = k
      · simp [hk]
      · simp [hk]
  · exact .inr (registryLookup_setdefault_preserved k' p h)

/-- A key absent-or-bound-to-`p` is bound to `p` after `setdefault` on that
key with value `p`. -/
theorem registryLookup_setdefault_invHit {r : Registry} {k : RegKey}
    {p : TypePipelineDef}
    (h : registryLookup r k = none ∨ registryLookup r k = some p) :
    registryLookup (registrySetdefault r k p) k = some p := by
  rcases h with h | h
  · exact registryLookup_setdefault_hit p h
  · exact registryLookup_setdefault_preserved k p h

/-- A bound key survives the whole `jtypes` registration fold. -/
theorem registryLookup_fold_preserved (js : List String) (p : TypePipelineDef)
    {k : RegKey} {w : TypePipelineDef} :
    ∀ (acc : Registry), registryLookup acc k = some w →
      registryLookup
        (js.foldl (fun a j => registrySetdefault a (.ofJType j) p) acc) k =
        some w := by
  induction js with
  | nil => intro acc h; simpa using h
  | cons j js ih =>
    intro acc h
    exact ih _ (registryLookup_setdefault_preserved _ p h)

/-- The invariant "absent or bound to `p`" survives the whole `jtypes`
registration fold. -/
theorem registryLookup_fold_inv (js : List String) (p : TypePipelineDef)
    {k : RegKey} :
    ∀ (acc : Registry),
      (registryLookup acc k = none ∨ registryLookup acc k = some p) →
      (registryLookup
          (js.foldl (fun a j => registrySetdefault a (.ofJType j) p) acc) k =
            none ∨
        registryLookup
          (js.foldl (fun a j => registrySetdefault a (.ofJType j) p) acc) k =
            some p) := by
  induction js with
  | nil => intro acc h; simpa using h
  | cons j js ih =>
    intro acc h
    exact ih _ (registryLookup_setdefault_inv _ h)

/-- Every member of `jtypes` comes out of the registration fold bound to
`p`, provided it went in absent or already bound to `p`. -/
theorem registryLookup_fold_hit (js : List String) (p : TypePipelineDef)
    (j : String) (hj : j ∈ js) :
    ∀ (acc : Registry),
      (registryLookup acc (.ofJType j) = none ∨
        registryLookup acc (.ofJType j) = some p) →
      registryLookup
        (js.foldl (fun a j => registrySetdefault a (.ofJType j) p) acc)
        (.ofJType j) = some p := by
  induction js with
  | nil => cases hj
  | cons j0 js ih =>
    intro acc h
    rcases List.mem_cons.mp hj with hj0 | hjs
    · subst hj0
      exact registryLookup_fold_preserved js p _
        (registryLookup_setdefault_invHit h)
    · exact ih hjs _ (registryLookup_setdefault_inv _ h)

/-- Claim C3: registering a pipeline inserts it (with `setdefault`) under
its language type, under its uppercased name, and under each of its native
type identifiers; when those keys were free, resolving the registry by the
language type, by any native identifier, and by the (uppercased) name all
return the same pipeline object. -/
theorem registry_resolution_consistent (r : Registry) (p : TypePipelineDef)
    (s : String)
    (h1 : registryLookup r (dtypeKey p) = none)
    (h2 : registryLookup r (.ofStr (pyUpper (dtypeName p))) = none)
    (h3 : ∀ j ∈ p.jtypes, registryLookup r (.ofJType j) = none)
    (hs : pyUpper s = pyUpper (dtypeName p)) :
    get_type_pipeline (BasePipeline_init r p) (.obj (dtypeKey p)) = .ok p ∧
    get_type_pipeline (BasePipeline_init r p) (.str s) = .ok p ∧
    ∀ j ∈ p.jtypes,
      get_type_pipeline (BasePipeline_init r p) (.obj (.ofJType j)) = .ok p := by
  have hd1 : registryLookup (registrySetdefault r (dtypeKey p) p)
      (dtypeKey p) = some p := registryLookup_setdefault_hit p h1
  have hu1 : registryLookup (registrySetdefault r (dtypeKey p) p)
        (.ofStr (pyUpper (dtypeName p))) = none ∨
      registryLookup (registrySetdefault r (dtypeKey p) p)
        (.ofStr (pyUpper (dtypeName p))) = some p :=
    registryLookup_setdefault_inv _ (.inl h2)
  have hu2 : registryLookup
      (registrySetdefault (registrySetdefault r (dtypeKey p) p)
        (.ofStr (pyUpper (dtypeName p))) p)
      (.ofStr (pyUpper (dtypeName p))) = some p :=
    registryLookup_setdefault_invHit hu1
  have hd2 : registryLookup
      (registrySetdefault (registrySetdefault r (dtypeKey p) p)
        (.ofStr (pyUpper (dtypeName p))) p)
      (dtypeKey p) = some p :=
    registryLookup_setdefault_preserved _ p hd1
  refine ⟨?_, ?_, ?_⟩
  · have := registryLookup_fold_preserved p.jtypes p _ hd2
    simp only [BasePipeline_init, get_type_pipeline]
    rw [this]
  · have := registryLookup_fold_preserved p.jtypes p _ hu2
    simp only [BasePipeline_init, get_type_pipeline, hs]
    rw [this]
  · intro j hj
    have hj0 : registryLookup
        (registrySetdefault (registrySetdefault r (dtypeKey p) p)
          (.ofStr (pyUpper (dtypeName p))) p)
        (.ofJType j) = none ∨
        registryLookup
        (registrySetdefault (registrySetdefault r (dtypeKey p) p)
          (.ofStr (pyUpper (dtypeName p))) p)
        (.ofJType j) = some p :=
      registryLookup_setdefault_inv _
        (registryLookup_setdefault_inv _ (.inl (h3 j hj)))
    have := registryLookup_fold_hit p.jtypes p j hj _ hj0
    simp only [BasePipeline_init, get_type_pipeline]
    rw [this]

/-- Witness for C3: registering the integer pipeline in an empty registry
makes resolution by the `int` type, by the uppercased name `"INT"`, and by
each of the native identifiers `JInt`/`JLong`/`JShort` all return that
pipeline. -/
theorem registry_resolution_consistent_witness :
    get_type_pipeline (BasePipeline_init [] intPipelineDef)
        (.obj (dtypeKey intPipelineDef)) = .ok intPipelineDef ∧
    get_type_pipeline (BasePipeline_init [] intPipelineDef)
        (.str "INT") = .ok intPipelineDef ∧
    ∀ j ∈ intPipelineDef.jtypes,
      get_type_pipeline (BasePipeline_init [] intPipelineDef)
        (.obj (.ofJType j)) = .ok intPipelineDef :=
  registry_resolution_consistent [] intPipelineDef "INT" rfl rfl
    (by intro j hj; rfl) (by decide)

/-- Claim C2: for a settings record constructed with an `inherit` base,
every declared field other than `name`, `driver` and `inherit` that is left
at the unset sentinel resolves at construction time to the base's value
when the base defines one (and to the base's "missing" answer, i.e. stays
unset, otherwise), while an explicitly set field is never overwritten. -/
theorem settings_inheritance_resolves_unset (derived : SettingsRecord)
    (base : SettingsRecord) (f : String)
    (h1 : f ∈ DialectSettings_fields)
    (h2 : f ∉ DialectSettings_ignore) :
    (derived f = none →
      DialectSettings_post_init derived (some base) f = base f) ∧
    (∀ v, derived f = some v →
      DialectSettings_post_init derived (some base) f = some v) := by
  constructor
  · intro hunset
    simp only [DialectSettings_post_init, if_pos (And.intro h1 h2), hunset]
  · intro v hset
    simp only [DialectSettings_post_init, if_pos (And.intro h1 h2), hset]

/-- Witness for C2: a base defining a returning-support flag as true fills
in the derived record's unset field at construction time. -/
theorem settings_inheritance_resolves_unset_witness :
    DialectSettings_post_init derivedAllUnset (some baseWithReturning)
      "insert_returning" = some (.pybool true) := by
  have h := settings_inheritance_resolves_unset derivedAllUnset
    baseWithReturning "insert_returning" (by decide) (by decide)
  rw [h.1 rfl]
  rfl

/-- Claim C4 evaluation (code bug): `executemany` with a sequence holding a
single named-mapping parameter set hands that mapping to the native batched
call unchanged - it is not flattened to the positional list of its values,
unlike the per-set flattening `_execute` performs (shown in the last
conjunct). -/
theorem executemany_does_not_flatten_mapping_param_sets :
    Cursor_executemany_params
        (.seq [.map [("a", .pyint 1), ("b", .pyint 2)]]) =
      some [.map [("a", .pyint 1), ("b", .pyint 2)]] ∧
    Cursor_executemany_params
        (.seq [.map [("a", .pyint 1), ("b", .pyint 2)]]) ≠
      some ([ParamSet.map [("a", .pyint 1), ("b", .pyint 2)]].map
        flatten_param_set) ∧
    Cursor_execute_params (some (.map [("a", .pyint 1), ("b", .pyint 2)])) =
      some [.pyint 1, .pyint 2] := by
  refine ⟨rfl, ?_, rfl⟩
  decide

/-- Claim C5: `fetchmany` called without an explicit size requests exactly
the cursor's current `arraysize` rows from the result set, returns
`min arraysize remaining` rows, and consumes them - so a call returns fewer
rows than `arraysize` only when the result set has reached its end. -/
theorem fetchmany_defaults_to_arraysize (st : JpypeCursorState) :
    jpype_fetch_size st (-1) = st.arraysize ∧
    (Cursor_fetchmany st).1.length = min st.arraysize st.rows.length ∧
    (Cursor_fetchmany st).1 = st.rows.take st.arraysize ∧
    (Cursor_fetchmany st).2.rows = st.rows.drop st.arraysize := by
  refine ⟨rfl, ?_, rfl, rfl⟩
  simp [Cursor_fetchmany, jpype_fetchmany, jpype_fetch_size]

/-- Claim C6: `close()` on a Connection and on a Cursor is idempotent - the
first close succeeds and marks the object closed, a second close succeeds
as well (a no-op, no error raised), and `is_closed` remains true. -/
theorem close_is_idempotent (c : JpypeConnectionState)
    (st : JpypeCursorState) :
    Connection_close c = .ok ⟨true⟩ ∧
    Connection_close ⟨true⟩ = .ok ⟨true⟩ ∧
    Connection_is_closed ⟨true⟩ = true ∧
    Cursor_close st = .ok { st with closed := true } ∧
    Cursor_close { st with closed := true } = .ok { st with closed := true } ∧
    Cursor_is_closed { st with closed := true } = true := by
  refine ⟨rfl, rfl, rfl, rfl, rfl, rfl⟩

/-- Claim C7: for every built-in pipeline except the decimal one, decoding
the encoding of a language-native value of that pipeline's semantic type
gives the value back (`decode(encode(v)) == v`) - for the object, null,
boolean, integer, float, string, binary, date, time and timestamp
pipelines. -/
theorem pipelines_decode_encode_roundtrip :
    (∀ v : PyVal,
      ObjectPipeline_java_to_python (ObjectPipeline_python_to_java v) = v) ∧
    NullPipeline_java_to_python (NullPipeline_python_to_java ()) = .pynone ∧
    (∀ b : Bool,
      BooleanPipeline_java_to_python (BooleanPipeline_python_to_java b) =
        .pybool b) ∧
    (∀ n : Int,
      IntPipeline_java_to_python (IntPipeline_python_to_java n) =
        some (.pyint n)) ∧
    (∀ q : ℚ,
      FloatPipeline_java_to_python (FloatPipeline_python_to_java q) =
        some (.pyfloat q)) ∧
    (∀ s : String,
      StrPipeline_java_to_python (StrPipeline_python_to_java s) = .pystr s) ∧
    (∀ bs : List Nat,
      BinaryPipeline_java_to_python (BinaryPipeline_python_to_java bs) =
        some (.pybytes bs)) ∧
    (∀ d : PyDate,
      DatePipeline_java_to_python (DatePipeline_python_to_java d) =
        some (.pydate d)) ∧
    (∀ t : PyTime,
      TimePipeline_java_to_python (TimePipeline_python_to_java t) =
        some (.pytime t)) ∧
    (∀ dt : PyDatetime,
      DatetimePipeline_java_to_python (DatetimePipeline_python_to_java dt) =
        some (.pydatetime dt)) := by
  exact ⟨fun v => rfl, rfl, fun b => rfl, fun n => rfl, fun q => rfl,
    fun s => rfl, fun bs => rfl, fun d => rfl, fun t => rfl, fun dt => rfl⟩

/-- A value already inside the binade `[1, 2)` is returned unchanged by the
normalisation loop. -/
theorem scaleToBinade_fix (fuel : Nat) (a : ℚ) (e : ℤ)
    (h1 : 1 ≤ a) (h2 : a < 2) :
    scaleToBinade (fuel + 1) a e = (a, e) := by
  simp only [scaleToBinade, if_neg (not_lt.mpr h1), if_neg (not_le.mpr h2)]

/-- The binary64 float nearest to 11/10 (the value of `float(Decimal("1.10"))`). -/
theorem pyFloat64OfRat_eleven_tenths :
    pyFloat64OfRat (11 / 10) = 2476979795053773 / 2251799813685248 := by
  have habs : ratAbs (11 / 10 : ℚ) = 11 / 10 := by norm_num [ratAbs]
  have hscale : scaleToBinade 4200 (ratAbs (11 / 10)) 0 = (11 / 10, 0) := by
    rw [habs]
    exact scaleToBinade_fix 4199 (11 / 10) 0 (by norm_num) (by norm_num)
  have hround : roundHalfToEven ((11 : ℚ) / 10 * 2 ^ 52) = 4953959590107546 := by
    have hfl : ⌊(11 : ℚ) / 10 * 2 ^ 52⌋ = 4953959590107545 := by
      norm_num
    simp only [roundHalfToEven, hfl]
    norm_num
  rw [pyFloat64OfRat.eq_def]
  rw [if_neg (by norm_num), hscale]
  simp only [hround]
  rw [if_neg (by norm_num), if_neg (by norm_num)]
  norm_num [pow2z]
  have h52 : (52 : ℤ).toNat = 52 := rfl
  rw [h52]
  norm_num

/-- Claim C8: the decimal pipeline encodes a `Decimal` as its binary64
float conversion; decoding the encoding of `Decimal("1.10")` (exact value
11/10) yields the decimal of the nearest binary64 float, which differs from
the original value, yet agrees with it numerically to within float
precision (here within `2^-52`). -/
theorem decimal_encode_is_lossy_float :
    DecimalPipeline_python_to_java (11 / 10 : ℚ) =
      .plain (.pyfloat (pyFloat64OfRat (11 / 10))) ∧
    DecimalPipeline_java_to_python (DecimalPipeline_python_to_java (11 / 10)) =
      some (.pydecimal ((2476979795053773 : ℚ) / 2251799813685248)) ∧
    ((2476979795053773 : ℚ) / 2251799813685248) ≠ (11 / 10 : ℚ) ∧
    ratAbs ((2476979795053773 : ℚ) / 2251799813685248 - 11 / 10) ≤
      1 / 2 ^ 52 := by
  refine ⟨rfl, ?_, by norm_num, by norm_num [ratAbs]⟩
  show some (PyVal.pydecimal (pyFloat64OfRat (11 / 10))) = _
  rw [pyFloat64OfRat_eleven_tenths]

/-- Claim C9 counterexample: resolving a connection URL whose query string
lacks the required `jdbc_driver` key raises `OperationalError` - a member
of the database-error taxonomy (a subclass of `DatabaseError`), chained
from the dict's `KeyError` - and not a plain lookup/value-error condition,
contrary to the claim that configuration-layer lookup failures stay outside
the database-error taxonomy. -/
theorem missing_jdbc_driver_raises_taxonomy_member :
    JDBCConnector_create_connect_args "jdbc:sqlite::memory:" false
        [("foo", "bar")] =
      .error ⟨.operationalError,
        "The `jdbc_driver` key is required in the query string",
        some .keyError⟩ ∧
    DbapiClass.isSubclassOf .operationalError .databaseError = true := by
  exact ⟨rfl, rfl⟩

/-- Claim C9 (amended): resolving an unknown Type Registry key raises the
dict's `KeyError`, a `LookupError`-class condition outside the
database-error taxonomy; the absence of the required `jdbc_driver`
connection-string key is a fatal configuration error, but it is reported as
`OperationalError` - a database-error-taxonomy member chained from the
underlying `KeyError` - not as a plain lookup/value error. -/
theorem registry_lookup_error_and_driver_config_error (r : Registry)
    (key : RegKey) (dsn : String) (is_async : Bool)
    (query : List (String × String))
    (h1 : registryLookup r key = none)
    (h2 : queryLookup query "jdbc_dsn" = none)
    (h3 : queryLookup query "jdbc_driver" = none) :
    get_type_pipeline r (.obj key) = .error .keyError ∧
    BuiltinExcClass.isSubclassOf .keyError .lookupError = true ∧
    JDBCConnector_create_connect_args dsn is_async query =
      .error ⟨.operationalError,
        "The `jdbc_driver` key is required in the query string",
        some .keyError⟩ ∧
    DbapiClass.isSubclassOf .operationalError .databaseError = true := by
  refine ⟨?_, rfl, ?_, rfl⟩
  · simp [get_type_pipeline, h1]
  · simp [JDBCConnector_create_connect_args, h2, h3]

/-- Witness for the amended C9 at concrete inputs: an empty registry and a
query string carrying only an unrelated key. -/
theorem registry_lookup_error_and_driver_config_error_witness :
    get_type_pipeline [] (.obj (.ofType "int")) = .error .keyError ∧
    BuiltinExcClass.isSubclassOf .keyError .lookupError = true ∧
    JDBCConnector_create_connect_args "jdbc:sqlite::memory:" false
        [("foo", "bar")] =
      .error ⟨.operationalError,
        "The `jdbc_driver` key is required in the query string",
        some .keyError⟩ ∧
    DbapiClass.isSubclassOf .operationalError .databaseError = true :=
  registry_lookup_error_and_driver_config_error [] (.ofType "int")
    "jdbc:sqlite::memory:" false [("foo", "bar")] rfl rfl rfl

/-- Claim C10: when a native call dispatched through the worker-thread path
raises a database-error-family exception on a connection that is not
already closed, the adapter closes the underlying connection inside the
cancellation-shielded scope and propagates the original exception
unchanged. -/
theorem async_error_closes_connection_then_reraises
    (conn : JpypeConnectionState) (e : PyException)
    (h1 : conn.closed = false) (h2 : isDbapiErrorFamily e = true) :
    AsyncConnection_safe_run_in_thread (α := Unit) conn (.error e) =
      (.error e, ⟨true⟩, true) := by
  simp [AsyncConnection_safe_run_in_thread, h1, h2]

/-- Witness for C10: an open connection and a native operational error. -/
theorem async_error_closes_connection_then_reraises_witness :
    AsyncConnection_safe_run_in_thread (α := Unit) ⟨false⟩
        (.error (.jpypeErr ⟨.operationalError, ["connection reset"]⟩)) =
      (.error (.jpypeErr ⟨.operationalError, ["connection reset"]⟩),
        ⟨true⟩, true) :=
  async_error_closes_connection_then_reraises ⟨false⟩
    (.jpypeErr ⟨.operationalError, ["connection reset"]⟩) rfl rfl

